import Mathlib

/-!
Verification development for the Dungeon-Adventure repository.

The simulation core (src/model/Game.py, src/model/tiles.py) is embedded
shallowly: pure methods become Lean functions, the mutable Game object becomes
an explicit record threaded through each function, Python exceptions become
early returns or Except values, and the one random draw of a tick is passed as
an explicit parameter.  Classes of this repository that are not under src
(hero and enemy classes, DungeonManager, RoomTransitionManager, the save/load
manager) are modelled from the specification; each such definition carries a
doc comment starting with Modelled from the spec.
-/

namespace DungeonAdventure

/-- The HeroType enum of src/model/Game.py (members KNIGHT, ARCHER, CLERIC). -/
inductive HeroType
  | knight
  | archer
  | cleric
deriving DecidableEq, Repr

/-- The GameState enum of src/model/Game.py. -/
inductive GameState
  | MENU
  | PLAYING
  | PAUSED
  | GAME_OVER
  | VICTORY
  | HERO_SELECT
deriving DecidableEq, Repr

/-- Modelled from the spec: the dungeon template enum of RoomDungeonSystem
(not in src); the source names members SQUARE and DEMO. -/
inductive DungeonTemplate
  | SQUARE
  | DEMO
deriving DecidableEq, Repr

/-- Modelled from the spec: the direction enum used for doors. -/
inductive Direction
  | UP
  | DOWN
  | LEFT
  | RIGHT
deriving DecidableEq, Repr

/-- Modelled from the spec: the room kind tag, one of START, NORMAL, BOSS. -/
inductive RoomKind
  | START
  | NORMAL
  | BOSS
deriving DecidableEq, Repr

/-- An axis-aligned box with rational position and size, as used for hitboxes. -/
structure Rect where
  x : ℚ
  y : ℚ
  w : ℚ
  h : ℚ
deriving DecidableEq, Repr

/-- Strict-overlap test between two boxes (pygame colliderect style). -/
def rectsOverlap (a b : Rect) : Bool :=
  decide (a.x < b.x + b.w) && decide (b.x < a.x + a.w) &&
  decide (a.y < b.y + b.h) && decide (b.y < a.y + a.h)

/-- Membership of a point in a box, used for the door trigger test. -/
def Rect.containsPoint (r : Rect) (px py : ℚ) : Bool :=
  decide (r.x ≤ px) && decide (px ≤ r.x + r.w) &&
  decide (r.y ≤ py) && decide (py ≤ r.y + r.h)

/-- The per-tick boolean map of logical actions read from the keyboard. -/
structure Keys where
  left : Bool
  right : Bool
  space : Bool
  q : Bool
  e : Bool
deriving DecidableEq, Repr

/-- The key map with nothing pressed. -/
def keysNone : Keys :=
  { left := false, right := false, space := false, q := false, e := false }

/-- Modelled from the spec: hero state (the Knight, Archer and Cleric classes
are not in src).  Fields follow the spec data model: top-left position,
width/height, health and max_health, alive flag, cooldown timers, attacking
flag, per-swing hit set (indices into the enemies list), the ground line kept
by Game, and a vertical velocity (the spec notes every hero carries one). -/
structure Hero where
  x : ℚ
  y : ℚ
  width : Nat
  height : Nat
  health : ℚ
  max_health : ℚ
  speed : ℚ
  damage : ℚ
  is_alive : Bool
  is_attacking : Bool
  ground_y : ℚ
  velocity_y : ℚ
  attack_cooldown_remaining : ℚ
  special_cooldown_remaining : ℚ
  hit_targets : List Nat
deriving DecidableEq, Repr

/-- Modelled from the spec: enemy state (the monster classes are not in src):
position, dimensions, health, alive and invulnerability flags, plus the
movement/attack numbers an enemy needs each tick and a boss tag. -/
structure Enemy where
  x : ℚ
  y : ℚ
  width : Nat
  height : Nat
  health : ℚ
  max_health : ℚ
  speed : ℚ
  damage : ℚ
  is_alive : Bool
  is_invulnerable : Bool
  isBoss : Bool
  attack_cooldown : ℚ
deriving DecidableEq, Repr

/-- Modelled from the spec: a projectile with position, velocity and an
active flag (the ProjectileManager class is not in src). -/
structure Projectile where
  x : ℚ
  y : ℚ
  vx : ℚ
  vy : ℚ
  active : Bool
deriving DecidableEq, Repr

/-- Modelled from the spec: a platform the hero can stand on (the Platform
classes are not in src). -/
structure Platform where
  x : ℚ
  y : ℚ
  w : ℚ
  h : ℚ
  broken : Bool
deriving DecidableEq, Repr

/-- Modelled from the spec: a pillar is a room-local collectible; collecting
is idempotent per pillar. -/
structure Pillar where
  x : ℚ
  y : ℚ
  w : ℚ
  h : ℚ
  collected : Bool
deriving DecidableEq, Repr

/-- Modelled from the spec: a directional door of a room, with its trigger
rectangle and a lock flag. -/
structure Door where
  dir : Direction
  x : ℚ
  y : ℚ
  w : ℚ
  h : ℚ
  locked : Bool
deriving DecidableEq, Repr

/-- The trigger rectangle of a door. -/
def Door.rect (d : Door) : Rect := { x := d.x, y := d.y, w := d.w, h := d.h }

/-- Modelled from the spec: a Room of RoomDungeonSystem (not in src): grid
coordinate, pixel width/height, the top of the walkable floor, a kind tag and
a door set. -/
structure Room where
  col : Nat
  row : Nat
  width : Nat
  height : Nat
  floor_y : Nat
  kind : RoomKind
  doors : List Door
deriving DecidableEq, Repr

/-- The is_boss_room predicate of Room. -/
def Room.is_boss_room (r : Room) : Bool := r.kind == RoomKind.BOSS

/-- The is_start_room predicate of Room. -/
def Room.is_start_room (r : Room) : Bool := r.kind == RoomKind.START

/-- Modelled from the spec: the DungeonManager state (not in src): the grid of
rooms, the tracked current-room coordinate, the template it was built from and
the collectible list of the pillar manager. -/
structure Dungeon where
  rooms : List Room
  currentPos : Nat × Nat
  template : DungeonTemplate
  pillars : List Pillar
deriving DecidableEq, Repr

/-- Room lookup by grid coordinate. -/
def Dungeon.roomAt (d : Dungeon) (p : Nat × Nat) : Option Room :=
  d.rooms.find? (fun r => r.col == p.1 && r.row == p.2)

/-- The get_current_room accessor of DungeonManager. -/
def Dungeon.getCurrentRoom (d : Dungeon) : Option Room :=
  d.roomAt d.currentPos

/-- The get_current_room_position accessor of DungeonManager. -/
def Dungeon.getCurrentRoomPosition (d : Dungeon) : Nat × Nat :=
  d.currentPos

/-- Modelled from the spec: set_current_room_by_coordinates moves the tracked
coordinate to the given pair when a room exists there; a missing room raises,
which the caller catches (None here). -/
def Dungeon.setCurrentRoomByCoordinates (d : Dungeon) (c r : Nat) : Option Dungeon :=
  match d.roomAt (c, r) with
  | some _ => some { d with currentPos := (c, r) }
  | none => none

/-- Modelled from the spec: get_player_spawn_position_for_current_room
computes a floor-aligned spawn point offset inward from the wall; the
horizontal inset is not fixed anywhere under src and is taken to be 100. -/
def Dungeon.playerSpawnPosition (d : Dungeon) (w h : Nat) : ℚ × ℚ :=
  match d.getCurrentRoom with
  | some room => (100, (room.floor_y : ℚ) - (h : ℚ))
  | none => ((w : ℚ) - (w : ℚ), 0)

/-- The neighboring grid coordinate in a given door direction. -/
def neighborPos (p : Nat × Nat) : Direction → Nat × Nat
  | Direction.LEFT => (p.1 - 1, p.2)
  | Direction.RIGHT => (p.1 + 1, p.2)
  | Direction.UP => (p.1, p.2 - 1)
  | Direction.DOWN => (p.1, p.2 + 1)

/-- Modelled from the spec: walk-through doors (LEFT/RIGHT) trigger on mere
overlap of the feet-level point the caller passes with an unlocked door; on
success the manager moves its current position to the neighboring room. -/
def Dungeon.tryEnterWalkthroughDoor (d : Dungeon) (px py : ℚ) : Option Dungeon :=
  match d.getCurrentRoom with
  | none => none
  | some room =>
    match room.doors.find? (fun door =>
        (door.dir == Direction.LEFT || door.dir == Direction.RIGHT) &&
        !door.locked && door.rect.containsPoint px py) with
    | none => none
    | some door => some { d with currentPos := neighborPos d.currentPos door.dir }

/-- Modelled from the spec: interactive doors (UP/DOWN) additionally require
an explicit interact action from the actor. -/
def Dungeon.tryEnterInteractiveDoor (d : Dungeon) (px py : ℚ) (interact : Bool) : Option Dungeon :=
  if !interact then none
  else
    match d.getCurrentRoom with
    | none => none
    | some room =>
      match room.doors.find? (fun door =>
          (door.dir == Direction.UP || door.dir == Direction.DOWN) &&
          !door.locked && door.rect.containsPoint px py) with
      | none => none
      | some door => some { d with currentPos := neighborPos d.currentPos door.dir }

/-- Modelled from the spec: door rectangles of a room; LEFT/RIGHT doors sit
at floor level on the side walls, UP/DOWN doors sit centered on the top and
bottom edges.  Doors are only created toward directions that have a grid
neighbor, and none is locked (the boss-door lock condition is an unimplemented
stub in the source). -/
def roomDoors (c r cols rows : Nat) (w h floorY : Nat) : List Door :=
  (if 0 < c then
    [{ dir := Direction.LEFT, x := 0, y := (floorY : ℚ) - 96, w := 16, h := 96, locked := false }]
   else []) ++
  (if c + 1 < cols then
    [{ dir := Direction.RIGHT, x := (w : ℚ) - 16, y := (floorY : ℚ) - 96, w := 16, h := 96, locked := false }]
   else []) ++
  (if 0 < r then
    [{ dir := Direction.UP, x := (w : ℚ) / 2 - 32, y := 0, w := 64, h := 16, locked := false }]
   else []) ++
  (if r + 1 < rows then
    [{ dir := Direction.DOWN, x := (w : ℚ) / 2 - 32, y := (h : ℚ) - 16, w := 64, h := 16, locked := false }]
   else [])

/-- Modelled from the spec: one room of a generated grid.  Pixel size and
floor height come from DungeonConfig, which is not under src; they are fixed
at 800 x 600 with the floor top at 500. -/
def mkRoom (c r : Nat) (k : RoomKind) (cols rows : Nat) : Room :=
  { col := c, row := r, width := 800, height := 600, floor_y := 500, kind := k,
    doors := roomDoors c r cols rows 800 600 500 }

/-- Modelled from the spec: the SQUARE template is the full 3 x 3 grid with
the start room at (0,0) and the boss room at (2,2). -/
def squareRooms : List Room :=
  [mkRoom 0 0 RoomKind.START 3 3, mkRoom 1 0 RoomKind.NORMAL 3 3, mkRoom 2 0 RoomKind.NORMAL 3 3,
   mkRoom 0 1 RoomKind.NORMAL 3 3, mkRoom 1 1 RoomKind.NORMAL 3 3, mkRoom 2 1 RoomKind.NORMAL 3 3,
   mkRoom 0 2 RoomKind.NORMAL 3 3, mkRoom 1 2 RoomKind.NORMAL 3 3, mkRoom 2 2 RoomKind.BOSS 3 3]

/-- Modelled from the spec: the DEMO template is a small layout; modelled as a
1 x 2 strip with the start room at (0,0) and the boss room at (1,0). -/
def demoRooms : List Room :=
  [mkRoom 0 0 RoomKind.START 2 1, mkRoom 1 0 RoomKind.BOSS 2 1]

/-- Modelled from the spec: deterministic construction of the dungeon graph
from a template; the tracked current room starts at the start room (0,0). -/
def buildDungeon : DungeonTemplate → Dungeon
  | DungeonTemplate.SQUARE =>
      { rooms := squareRooms, currentPos := (0, 0), template := DungeonTemplate.SQUARE, pillars := [] }
  | DungeonTemplate.DEMO =>
      { rooms := demoRooms, currentPos := (0, 0), template := DungeonTemplate.DEMO, pillars := [] }

/-- The name attribute of a HeroType member, as stored by save_game. -/
def heroTypeName : HeroType → String
  | HeroType.knight => "KNIGHT"
  | HeroType.archer => "ARCHER"
  | HeroType.cleric => "CLERIC"

/-- The enum lookup HeroType[name]; an unknown name raises KeyError (None). -/
def heroTypeFromName (s : String) : Option HeroType :=
  if s = "KNIGHT" then some HeroType.knight
  else if s = "ARCHER" then some HeroType.archer
  else if s = "CLERIC" then some HeroType.cleric
  else none

/-- The name attribute of a DungeonTemplate member, as stored by save_game. -/
def templateName : DungeonTemplate → String
  | DungeonTemplate.SQUARE => "SQUARE"
  | DungeonTemplate.DEMO => "DEMO"

/-- The enum lookup DungeonTemplate[name]; an unknown name raises KeyError. -/
def templateFromName (s : String) : Option DungeonTemplate :=
  if s = "SQUARE" then some DungeonTemplate.SQUARE
  else if s = "DEMO" then some DungeonTemplate.DEMO
  else none

/-- Modelled from the spec: construction of a hero of the given class at a
position.  The class stats are the ones recorded in src
utils/MockCharacterStats.py (knight 375 hp / speed 50 / damage 55, archer
150 / 40 / 40, cleric 250 / 35 / 85); the bounding box is fixed at 64 x 64 as
the hero classes are not under src. -/
def mkHero (ht : HeroType) (x y : ℚ) : Hero :=
  let base : Hero :=
    { x := x, y := y, width := 64, height := 64,
      health := 375, max_health := 375, speed := 50, damage := 55,
      is_alive := true, is_attacking := false, ground_y := 0, velocity_y := 0,
      attack_cooldown_remaining := 0, special_cooldown_remaining := 0,
      hit_targets := [] }
  match ht with
  | HeroType.knight => base
  | HeroType.archer => { base with health := 150, max_health := 150, speed := 40, damage := 40 }
  | HeroType.cleric => { base with health := 250, max_health := 250, speed := 35, damage := 85 }

/-- Modelled from the spec: the DemonBoss class is not under src; the boss
enemy spawned at the given position, with stats fixed here. -/
def demonBoss (x y : ℚ) : Enemy :=
  { x := x, y := y, width := 128, height := 100,
    health := 500, max_health := 500, speed := 20, damage := 25,
    is_alive := true, is_invulnerable := false, isBoss := true, attack_cooldown := 0 }

/-- The full-body bounding box of a hero. -/
def Hero.rect (h : Hero) : Rect :=
  { x := h.x, y := h.y, w := (h.width : ℚ), h := (h.height : ℚ) }

/-- The body box of an enemy, used as its hitbox. -/
def Enemy.hitbox (e : Enemy) : Rect :=
  { x := e.x, y := e.y, w := (e.width : ℚ), h := (e.height : ℚ) }

/-- The feet-level hitbox computed inside Game._check_door_traversal
(Game.py lines 422-426): left edge offset by a quarter of the width, half the
width wide, the bottom 16 pixels of the body box. -/
def Hero.feet_hitbox (h : Hero) : Rect :=
  { x := h.x + ((h.width / 4 : Nat) : ℚ),
    y := h.y + (h.height : ℚ) - 16,
    w := ((h.width / 2 : Nat) : ℚ),
    h := 16 }

/-- Modelled from the spec: activating a basic attack starts the swing,
clears the per-swing hit set and restarts the attack cooldown. -/
def Hero.activate_attack (h : Hero) : Hero :=
  { h with is_attacking := true, hit_targets := [], attack_cooldown_remaining := 1 }

/-- Modelled from the spec: activating the special ability restarts the
special cooldown. -/
def Hero.activate_special (h : Hero) : Hero :=
  { h with special_cooldown_remaining := 8 }

/-- Modelled from the spec: per-tick movement intent resolved from the input
map; A/D move the hero horizontally by the class speed scaled by a fixed
per-tick step. -/
def Hero.handle_input (h : Hero) (keys : Keys) : Hero :=
  let dx : ℚ := (if keys.right then h.speed else 0) - (if keys.left then h.speed else 0)
  { h with x := h.x + dx / 10 }

/-- Modelled from the spec: the uniform animation/timer advance of a tick;
both cooldowns count down and stop at zero. -/
def Hero.tick (h : Hero) (dt : ℚ) : Hero :=
  { h with attack_cooldown_remaining := max 0 (h.attack_cooldown_remaining - dt),
           special_cooldown_remaining := max 0 (h.special_cooldown_remaining - dt) }

/-- Modelled from the spec: the hero ticks its own state machine; the swing
ends when its cooldown window has elapsed. -/
def Hero.update_self (h : Hero) (_dt : ℚ) : Hero :=
  { h with is_attacking := h.is_attacking && decide (0 < h.attack_cooldown_remaining) }

/-- Modelled from the spec: the attack hitbox of the hero classes (not under
src): a box of fixed reach in front of the hero at body height. -/
def Hero.attack_hitbox (h : Hero) : Rect :=
  { x := h.x + (h.width : ℚ), y := h.y, w := 40, h := (h.height : ℚ) }

/-- Modelled from the spec: an enemy taking damage; an invulnerable enemy
ignores it (returns false), otherwise health drops, clamped at zero, the
alive flag follows, and true is returned. -/
def Enemy.take_damage (e : Enemy) (dmg : ℚ) : Enemy × Bool :=
  if e.is_invulnerable then (e, false)
  else
    let hp := max 0 (e.health - dmg)
    ({ e with health := hp, is_alive := decide (0 < hp) }, true)

/-- Modelled from the spec: the per-tick enemy timer advance. -/
def Enemy.tick (e : Enemy) (dt : ℚ) : Enemy :=
  { e with attack_cooldown := max 0 (e.attack_cooldown - dt) }

/-- Modelled from the spec: each living enemy moves toward its target each
tick at its own speed. -/
def Enemy.move_towards (e : Enemy) (tx _ty dt : ℚ) : Enemy :=
  let dir : ℚ := if e.x < tx then 1 else if tx < e.x then -1 else 0
  { e with x := e.x + dir * e.speed * dt }

/-- Modelled from the spec: an enemy attempts an attack each tick; the attack
itself is rate-limited inside the enemy, and lands when its body box overlaps
the hero. -/
def Enemy.attack_hero (e : Enemy) (h : Hero) : Enemy × Hero :=
  if decide (e.attack_cooldown ≤ 0) && rectsOverlap e.hitbox h.rect then
    let hp := max 0 (h.health - e.damage)
    ({ e with attack_cooldown := 1 }, { h with health := hp, is_alive := decide (0 < hp) })
  else (e, h)

/-- Modelled from the spec: a projectile advances along its velocity. -/
def Projectile.step (p : Projectile) (dt : ℚ) : Projectile :=
  if p.active then { p with x := p.x + p.vx * dt, y := p.y + p.vy * dt } else p

/-- The box of a projectile; size fixed as the projectile classes are not
under src. -/
def Projectile.rect (p : Projectile) : Rect := { x := p.x, y := p.y, w := 16, h := 16 }

/-- Modelled from the spec: the RoomTransitionManager state (not under src):
an active flag, elapsed/duration times and a fired-once marker for the
completion callback (the source always registers
Game._complete_room_transition as the callback). -/
structure TransitionState where
  is_active : Bool
  elapsed : ℚ
  duration : ℚ
  callback_fired : Bool
deriving DecidableEq, Repr

/-- The idle transition state. -/
def idleTransition : TransitionState :=
  { is_active := false, elapsed := 0, duration := 0, callback_fired := false }

/-- The Game object of src/model/Game.py, restricted to the simulation core:
presentation fields (screen, fonts, sprite groups, minimap, renderers) are
out of scope per the spec.  The source keeps a dict _heroes keyed by hero
type whose only entry aliases _active_hero; the model keeps that single hero
in active_hero.  projectiles is the list held by the projectile manager. -/
structure Game where
  state : GameState
  selected_hero_type : Option HeroType
  hero_selection_made : Bool
  dungeon_template : DungeonTemplate
  play_time : ℚ
  active_hero : Option Hero
  enemies : List Enemy
  projectiles : List Projectile
  platforms : List Platform
  dungeon : Option Dungeon
  current_room : Option Room
  camera_x : ℚ
  camera_y : ℚ
  width : Nat
  height : Nat
  transition : TransitionState
  pending_door : Option Unit
deriving DecidableEq, Repr

/-- The heroes-dict view: its only entry aliases the active hero. -/
def Game.heroes_values (g : Game) : List Hero := g.active_hero.toList

/-- Game.cleanup: the hero dict, the enemies list and the sprite groups are
cleared.  The projectile manager list is left alone (cleanup only empties the
projectile sprite group), and _active_hero is not reset here; callers
overwrite it right after. -/
def Game.cleanup (g : Game) : Game :=
  { g with enemies := [] }

/-- Game._initialize_dungeon: requires a selected hero type (the source
raises ValueError otherwise, a path unreachable from the modelled call sites
since both set the type first), then builds the dungeon manager from the
stored template and caches its current room. -/
def Game.init_dungeon (g : Game) : Game :=
  match g.selected_hero_type with
  | none => g
  | some _ =>
    let d := buildDungeon g.dungeon_template
    { g with dungeon := some d, current_room := d.getCurrentRoom }

/-- Game._initialize_game: cleanup, rebuild the dungeon, then create the hero
at a temporary position, move it to the spawn position for the current room
and set its ground line to the room floor. -/
def Game.init_game (g : Game) : Game :=
  let g1 := (g.cleanup).init_dungeon
  match g1.dungeon, g1.current_room, g1.selected_hero_type with
  | some d, some room, some ht =>
    let hero0 := mkHero ht 0 0
    let sp := d.playerSpawnPosition hero0.width hero0.height
    let hero1 := { hero0 with
                   x := sp.1
                   y := sp.2
                   ground_y := (room.floor_y : ℚ) - (hero0.height : ℚ) }
    { g1 with active_hero := some hero1 }
  | _, _, _ => g1

/-- The clamp sequence of Game._enforce_room_bounds (Game.py lines
1271-1286): the hero is clamped left to 0, then right to the room width, then
down to the floor line, in the order of the source. -/
def clampHeroToRoom (room : Room) (hero : Hero) : Hero :=
  let hero := if hero.x < 0 then { hero with x := 0 } else hero
  let hero := if (room.width : ℚ) < hero.x + (hero.width : ℚ) then
                { hero with x := (room.width : ℚ) - (hero.width : ℚ) } else hero
  if (room.floor_y : ℚ) < hero.y + (hero.height : ℚ) then
    { hero with y := (room.floor_y : ℚ) - (hero.height : ℚ) } else hero

/-- Game._enforce_room_bounds on the game record: a missing hero or room is a
defensive no-op. -/
def Game.enforce_room_bounds (g : Game) : Game :=
  match g.active_hero, g.current_room with
  | some hero, some room => { g with active_hero := some (clampHeroToRoom room hero) }
  | _, _ => g

/-- Game._start_room_transition (Game.py lines 444-457): a no-op while a
transition is already in flight; otherwise records the (always None) pending
door and starts a 0.8 second fade whose completion callback is
Game._complete_room_transition. -/
def Game.start_room_transition (g : Game) : Game :=
  if g.transition.is_active then g
  else
    { g with pending_door := none,
             transition := { is_active := true, elapsed := 0, duration := 4/5,
                             callback_fired := false } }

/-- Game._reposition_hero_after_door_traversal (Game.py lines 489-505):
move the active hero to the spawn position the dungeon manager computes for
its current room and refresh the ground line from the cached room floor. -/
def Game.reposition_hero_after_door_traversal (g : Game) : Game :=
  match g.active_hero, g.current_room with
  | some hero, some room =>
    match g.dungeon with
    | some d =>
      let sp := d.playerSpawnPosition hero.width hero.height
      { g with active_hero := some { hero with
                 x := sp.1
                 y := sp.2
                 ground_y := (room.floor_y : ℚ) - (hero.height : ℚ) } }
    | none => g
  | _, _ => g

/-- Game._spawn_room_enemies (Game.py lines 519-545), as a function of the
room and the drawn random number: the boss room gets a single DemonBoss at a
fixed offset from the floor; in a normal non-start room the source draws
random.randint(1, 3) and computes spawn coordinates, but the enemy
construction and append are commented out, so the loop adds nothing; the
start room gets none. -/
def spawnRoomEnemies (room : Room) (rand : Nat) : List Enemy :=
  if room.is_boss_room then
    [demonBoss ((room.width / 2 : Nat) : ℚ) ((room.floor_y : ℚ) - 100)]
  else if !room.is_start_room then
    let num_enemies := rand
    (List.range num_enemies).foldl (fun acc _i => acc) []
  else []

/-- Game._spawn_room_enemies on the game state: a missing current room is a
defensive no-op; otherwise the enemies list is cleared and replaced by the
spawn policy of the room. -/
def Game.spawn_room_enemies (g : Game) (rand : Nat) : Game :=
  match g.current_room with
  | none => g
  | some room => { g with enemies := spawnRoomEnemies room rand }

/-- Game._handle_room_change (Game.py lines 507-517): clear the projectile
list, re-run the spawn policy, and fire the boss-room entry hook (a print in
the source, so no modelled state changes). -/
def Game.handle_room_change (g : Game) (rand : Nat) : Game :=
  let g := { g with projectiles := [] }
  g.spawn_room_enemies rand

/-- Game._complete_room_transition (Game.py lines 459-487), invoked at the
midpoint of the transition: refresh the cached current room from the dungeon
manager, reposition the hero, teleport the camera to the hero clamped to the
room bounds, run the room-change side effects, and clear the pending door. -/
def Game.complete_room_transition (g : Game) (rand : Nat) : Game :=
  let g := { g with current_room := g.dungeon.bind Dungeon.getCurrentRoom }
  let g := g.reposition_hero_after_door_traversal
  let g :=
    match g.active_hero, g.current_room with
    | some hero, some room =>
      let target_x := hero.x - ((g.width / 2 : Nat) : ℚ)
      let target_y := hero.y - ((g.height / 2 : Nat) : ℚ)
      let max_x : ℚ := max 0 ((room.width : ℚ) - (g.width : ℚ))
      let max_y : ℚ := max 0 ((room.height : ℚ) - (g.height : ℚ))
      { g with camera_x := max 0 (min target_x max_x),
               camera_y := max 0 (min target_y max_y) }
    | _, _ => g
  let g := g.handle_room_change rand
  { g with pending_door := none }

/-- Game._check_door_traversal (Game.py lines 417-442): compute the
feet-level hitbox of the hero, try the walk-through doors on mere overlap,
and the interactive doors when E is held; entering a door mutates the dungeon
manager and starts the room transition.  The prev coordinates are accepted
and ignored exactly as in the source.  The interaction-prompt update the
source performs first is presentation only. -/
def Game.check_door_traversal (g : Game) (keys : Keys) (_prev_x _prev_y : ℚ) : Game :=
  match g.current_room, g.active_hero with
  | some _, some hero =>
    let fb := hero.feet_hitbox
    match g.dungeon with
    | none => g
    | some d =>
      match d.tryEnterWalkthroughDoor fb.x fb.y with
      | some d2 => ({ g with dungeon := some d2 }).start_room_transition
      | none =>
        if keys.e then
          match d.tryEnterInteractiveDoor fb.x fb.y true with
          | some d2 => ({ g with dungeon := some d2 }).start_room_transition
          | none => g
        else g
  | _, _ => g

/-- Game._check_pillar_collection: position-based proximity of the hero box
against the collectible list; collecting is idempotent per pillar. -/
def Game.check_pillar_collection (g : Game) : Game :=
  match g.current_room, g.active_hero with
  | some _, some hero =>
    match g.dungeon with
    | some d =>
      { g with dungeon := some { d with pillars := d.pillars.map (fun p =>
          if !p.collected &&
             rectsOverlap hero.rect { x := p.x, y := p.y, w := p.w, h := p.h } then
            { p with collected := true }
          else p) } }
    | none => g
  | _, _ => g

/-- The all_sprites.update(dt) pass: every actor advances its animations and
timers uniformly. -/
def Game.all_sprites_update (g : Game) (dt : ℚ) : Game :=
  { g with active_hero := g.active_hero.map (Hero.tick · dt),
           enemies := g.enemies.map (Enemy.tick · dt) }

/-- Game._handle_hero_enemy_collisions (Game.py lines 623-640): while the
hero is alive and attacking, every living enemy that overlaps the attack
hitbox and is not yet in the per-swing hit set takes damage once and is
recorded in the hit set. -/
def Game.handle_hero_enemy_collisions (g : Game) : Game :=
  match g.active_hero with
  | none => g
  | some hero =>
    if hero.is_alive && hero.is_attacking then
      let box := hero.attack_hitbox
      let step := fun (st : Hero × List Enemy × Nat) (e : Enemy) =>
        let h := st.1
        let acc := st.2.1
        let i := st.2.2
        if e.is_alive && !h.hit_targets.contains i && rectsOverlap box e.hitbox then
          let r := e.take_damage h.damage
          if r.2 then
            ({ h with hit_targets := h.hit_targets ++ [i] }, acc ++ [r.1], i + 1)
          else (h, acc ++ [r.1], i + 1)
        else (h, acc ++ [e], i + 1)
      let res := g.enemies.foldl step (hero, [], 0)
      { g with active_hero := some res.1, enemies := res.2.1 }
    else g

/-- Modelled from the spec: projectile-vs-enemy resolution (the
ProjectileManager class is not under src): an active projectile overlapping a
living enemy is spent on the first such enemy and deals a fixed damage. -/
def projectileResolve (p : Projectile) : List Enemy → Projectile × List Enemy
  | [] => (p, [])
  | e :: rest =>
    if p.active && e.is_alive && rectsOverlap p.rect e.hitbox then
      let r := e.take_damage 10
      ({ p with active := false }, r.1 :: rest)
    else
      let pr := projectileResolve p rest
      (pr.1, e :: pr.2)

/-- Game._handle_projectile_collisions: the projectile manager checks every
projectile against the enemies list. -/
def Game.handle_projectile_collisions (g : Game) : Game :=
  let step := fun (st : List Projectile × List Enemy) (p : Projectile) =>
    let pr := projectileResolve p st.2
    (st.1 ++ [pr.1], pr.2)
  let res := g.projectiles.foldl step ([], g.enemies)
  { g with projectiles := res.1, enemies := res.2 }

/-- Modelled from the spec: hero-vs-platform resolution (the Platform classes
are not under src): a hero overlapping an unbroken platform is set on its top
with downward velocity zeroed. -/
def platformCollide (p : Platform) (h : Hero) : Hero :=
  if !p.broken && rectsOverlap { x := p.x, y := p.y, w := p.w, h := p.h } h.rect then
    { h with y := p.y - (h.height : ℚ), velocity_y := 0 }
  else h

/-- Game._handle_platform_collisions: the platform manager checks every hero
sprite. -/
def Game.handle_platform_collisions (g : Game) : Game :=
  { g with active_hero := g.active_hero.map (fun h =>
      g.platforms.foldl (fun hh p => platformCollide p hh) h) }

/-- Game._handle_hero_floor_collision (Game.py lines 600-614): every living
hero is kept above the room floor, and its vertical velocity is zeroed on
contact. -/
def Game.handle_hero_floor_collision (g : Game) : Game :=
  match g.current_room with
  | none => g
  | some room =>
    { g with active_hero := g.active_hero.map (fun h =>
        if h.is_alive && decide ((room.floor_y : ℚ) < h.y + (h.height : ℚ)) then
          { h with y := (room.floor_y : ℚ) - (h.height : ℚ), velocity_y := 0 }
        else h) }

/-- Game._handle_collisions (Game.py lines 616-621): hero-attack-vs-enemy,
projectile-vs-enemy, hero-vs-platform, hero-vs-floor, in that order. -/
def Game.handle_collisions (g : Game) : Game :=
  (((g.handle_hero_enemy_collisions).handle_projectile_collisions).handle_platform_collisions).handle_hero_floor_collision

/-- Game._update_game_objects (Game.py lines 559-571): heroes tick their own
state machines; each living enemy, given an active hero, updates, moves
toward it and attempts an attack; then projectiles and platforms advance
(platforms are static in the model). -/
def Game.update_game_objects (g : Game) (dt : ℚ) : Game :=
  let g := { g with active_hero := g.active_hero.map (Hero.update_self · dt) }
  let g :=
    match g.active_hero with
    | some hero =>
      let step := fun (st : List Enemy × Hero) (e : Enemy) =>
        if e.is_alive then
          let e1 := e.move_towards st.2.x st.2.y dt
          let r := e1.attack_hero st.2
          (st.1 ++ [r.1], r.2)
        else (st.1 ++ [e], st.2)
      let res := g.enemies.foldl step ([], hero)
      { g with enemies := res.1, active_hero := some res.2 }
    | none => g
  { g with projectiles := g.projectiles.map (Projectile.step · dt) }

/-- Game._update_camera (Game.py lines 573-590): exponentially smoothed
follow of the active hero with factor 0.1, clamped to the room bounds. -/
def Game.update_camera (g : Game) : Game :=
  match g.active_hero, g.current_room with
  | some hero, some room =>
    let target_x := hero.x - ((g.width / 2 : Nat) : ℚ)
    let target_y := hero.y - ((g.height / 2 : Nat) : ℚ)
    let new_x := g.camera_x + (target_x - g.camera_x) * (1/10)
    let new_y := g.camera_y + (target_y - g.camera_y) * (1/10)
    let max_x : ℚ := max 0 ((room.width : ℚ) - (g.width : ℚ))
    let max_y : ℚ := max 0 ((room.height : ℚ) - (g.height : ℚ))
    { g with camera_x := max 0 (min new_x max_x),
             camera_y := max 0 (min new_y max_y) }
  | _, _ => g

/-- Game._check_game_state (Game.py lines 651-656) as a function of the data
it reads: if every hero in the dict is dead the state becomes GAME_OVER; else
if the enemies list is truthy (non-empty) and every enemy is dead it becomes
VICTORY; otherwise it is left alone. -/
def checkGameState (heroes : List Hero) (enemies : List Enemy) (st : GameState) : GameState :=
  if heroes.all (fun h => !h.is_alive) then GameState.GAME_OVER
  else if !enemies.isEmpty && enemies.all (fun e => !e.is_alive) then GameState.VICTORY
  else st

/-- Game._check_game_state on the game record. -/
def Game.check_game_state_tick (g : Game) : Game :=
  { g with state := checkGameState g.heroes_values g.enemies g.state }

/-- The update_pillars call of the dungeon manager advances pillar animations only, so
it changes nothing in the modelled state. -/
def Game.update_pillars (g : Game) (_dt : ℚ) : Game := g

/-- Modelled from the spec: RoomTransitionManager.update(dt) (not under src):
while a transition is active it advances the elapsed time; when elapsed
crosses the midpoint of the duration it invokes the completion callback
exactly once (always Game._complete_room_transition here); when elapsed
reaches the duration the machine returns to IDLE.  The drawn random number
of a possible enemy spawn in the callback is passed through. -/
def Game.transition_update (g : Game) (dt : ℚ) (rand : Nat) : Game :=
  if g.transition.is_active then
    let t := g.transition
    let e2 := t.elapsed + dt
    let g1 :=
      if t.callback_fired = false ∧ t.duration / 2 ≤ e2 then
        let gc := g.complete_room_transition rand
        { gc with transition := { gc.transition with callback_fired := true } }
      else g
    let t1 := if t.duration ≤ e2 then { g1.transition with is_active := false }
              else g1.transition
    { g1 with transition := { t1 with elapsed := e2 } }
  else g

/-- The tail of Game.update after the unconditional transition advance and
room-bounds clamp (Game.py lines 381-415): nothing runs while transitioning;
otherwise a living active hero resolves attack/special/movement input and the
door and pillar checks, then sprites advance, collisions resolve, game
objects update, the camera follows, win/loss is evaluated and pillars tick. -/
def Game.update_after_bounds (g : Game) (dt : ℚ) (keys : Keys) (_rand : Nat) : Game :=
  if g.transition.is_active then g
  else
    let g1 :=
      match g.active_hero with
      | some hero =>
        if hero.is_alive then
          let prev_x := hero.x
          let prev_y := hero.y
          let hero := if keys.space ∧ hero.attack_cooldown_remaining ≤ 0 then
                        hero.activate_attack else hero
          let hero := if keys.q ∧ hero.special_cooldown_remaining ≤ 0 then
                        hero.activate_special else hero
          let hero := hero.handle_input keys
          let g2 := { g with active_hero := some hero }
          let g3 := g2.check_door_traversal keys prev_x prev_y
          g3.check_pillar_collection
        else g
      | none => g
    let g2 := g1.all_sprites_update dt
    let g3 := g2.handle_collisions
    let g4 := g3.update_game_objects dt
    let g5 := g4.update_camera
    let g6 := g5.check_game_state_tick
    g6.update_pillars dt

/-- Game.update (Game.py lines 371-415): a no-op outside the PLAYING state;
otherwise the transition manager is advanced (possibly firing the midpoint
callback), the room bounds are enforced unconditionally, and the gated rest
of the tick follows. -/
def Game.update (g : Game) (dt : ℚ) (keys : Keys) (rand : Nat) : Game :=
  if g.state = GameState.PLAYING then
    (((g.transition_update dt rand)).enforce_room_bounds).update_after_bounds dt keys rand
  else g

/-- The Python error values the embedding distinguishes. -/
inductive PyError
  | ioError
  | typeError
  | keyError
  | valueError (msg : String)
deriving DecidableEq, Repr

/-- A dynamically typed Python argument, as far as the validated entry points
inspect one: a real HeroType member, or a value of another runtime type. -/
inductive PyArg
  | heroTag (t : HeroType)
  | strArg (s : String)
  | intArg (n : Int)
  | floatArg (q : ℚ)
  | noneArg
deriving DecidableEq, Repr

/-- The isinstance(arg, HeroType) test. -/
def PyArg.isHeroType : PyArg → Bool
  | PyArg.heroTag _ => true
  | _ => false

/-- The isinstance(arg, (int, float)) test. -/
def PyArg.isNumber : PyArg → Bool
  | PyArg.intArg _ => true
  | PyArg.floatArg _ => true
  | _ => false

/-- The numeric value of a number argument. -/
def PyArg.toQ : PyArg → ℚ
  | PyArg.intArg n => (n : ℚ)
  | PyArg.floatArg q => q
  | _ => 0

/-- Game.select_hero (Game.py lines 166-173): an argument that is not a
HeroType member raises ValueError before anything is touched — the error
carries the object state at raise time, which is the unchanged input state;
a valid member records the selection, switches to PLAYING and initializes
the game. -/
def Game.select_hero (g : Game) (arg : PyArg) : Except (PyError × Game) Game :=
  match arg with
  | PyArg.heroTag ht =>
    let g := { g with selected_hero_type := some ht, hero_selection_made := true }
    let g := { g with state := GameState.PLAYING }
    Except.ok g.init_game
  | _ => Except.error (PyError.valueError "Invalid hero type", g)

/-- Game._create_hero (Game.py lines 175-194): the hero-type and coordinate
arguments are validated first, each raising ValueError with the state still
untouched; a valid call builds the class instance (the sprite-group
registration of _initialize_hero is presentation only). -/
def Game.create_hero (g : Game) (heroArg xArg yArg : PyArg) :
    Except (PyError × Game) (Game × Hero) :=
  match heroArg with
  | PyArg.heroTag ht =>
    if xArg.isNumber && yArg.isNumber then
      Except.ok (g, mkHero ht xArg.toQ yArg.toQ)
    else Except.error (PyError.valueError "Invalid position coordinates", g)
  | _ => Except.error (PyError.valueError "Invalid hero type", g)

/-- Modelled from the spec: the serializable state record of the persistence
boundary — {hero type, hero position, hero health, current room coordinate,
dungeon template id, accumulated play time}.  An outer none marks an absent
field; for the two structured fields an inner none marks a field that is
present but malformed in shape (not a coordinate pair). -/
structure SaveRecord where
  hero_type : Option String
  hero_position : Option (Option (ℚ × ℚ))
  hero_health : Option ℚ
  current_room : Option (Option (Nat × Nat))
  dungeon_template : Option String
  play_time : Option ℚ
deriving DecidableEq, Repr

/-- Game.save_game (Game.py lines 1321-1341): with no active hero or dungeon
manager the save is refused (False, here none); a missing selected hero type
raises on .name and is caught the same way; otherwise the record is built
from the live state and handed to the persistence layer, which is modelled
from the spec as carrying the record unchanged. -/
def Game.save_game (g : Game) : Option SaveRecord :=
  match g.active_hero, g.dungeon with
  | some hero, some d =>
    match g.selected_hero_type with
    | none => none
    | some ht =>
      some { hero_type := some (heroTypeName ht),
             hero_position := some (some (hero.x, hero.y)),
             hero_health := some hero.health,
             current_room := some (some d.getCurrentRoomPosition),
             dungeon_template := some (templateName g.dungeon_template),
             play_time := some g.play_time }
  | _, _ => none

/-- Game.load_game (Game.py lines 1343-1373).  The whole body sits in a
try/except returning False, so the result is the returned boolean paired with
the object state when control leaves the body.  The source first extracts and
converts every field (lines 1352-1356) — a missing key or unknown enum name
raises there, before any mutation — then assigns play time, the selection and
the template, rebuilds the game, and only then applies position, health and
room coordinate, where a malformed value raises after those mutations. -/
def Game.load_game (g : Game) (rec : Option SaveRecord) : Bool × Game :=
  match rec with
  | none => (false, g)
  | some r =>
    match r.hero_type with
    | none => (false, g)
    | some tn =>
      match heroTypeFromName tn with
      | none => (false, g)
      | some ht =>
        match r.hero_position with
        | none => (false, g)
        | some posVal =>
          match r.hero_health with
          | none => (false, g)
          | some hp =>
            match r.current_room with
            | none => (false, g)
            | some roomVal =>
              match r.dungeon_template with
              | none => (false, g)
              | some dn =>
                match templateFromName dn with
                | none => (false, g)
                | some dtpl =>
                  let g1 := { g with play_time := r.play_time.getD 0 }
                  let g2 := { g1 with selected_hero_type := some ht }
                  let g3 := { g2 with dungeon_template := dtpl }
                  let g4 := g3.init_game
                  match g4.active_hero with
                  | none => (false, g4)
                  | some hero =>
                    match posVal with
                    | none => (false, g4)
                    | some pos =>
                      let hero2 := { hero with x := pos.1, y := pos.2 }
                      let g5 := { g4 with active_hero := some hero2 }
                      let g6 := { g5 with active_hero := g5.active_hero.map (fun h => { h with health := hp }) }
                      match roomVal with
                      | none => (false, g6)
                      | some rc =>
                        match g6.dungeon with
                        | none => (false, g6)
                        | some d =>
                          match d.setCurrentRoomByCoordinates rc.1 rc.2 with
                          | none => (false, g6)
                          | some d2 => (true, { g6 with dungeon := some d2 })

/-- The extraction phase of Game.load_game: true when the load fails at lines
1352-1356 of the source — a missing field or an unrecognized hero-type or
template name — which is before any mutation. -/
def SaveRecord.extraction_fails (r : SaveRecord) : Bool :=
  r.hero_type.isNone || (r.hero_type.bind heroTypeFromName).isNone ||
  r.hero_position.isNone || r.hero_health.isNone || r.current_room.isNone ||
  r.dungeon_template.isNone || (r.dungeon_template.bind templateFromName).isNone

/-- A tile of src/model/tiles.py: the sprite name it was parsed from and its
rectangle position (the parsed image itself is presentation). -/
structure Tile where
  image : String
  x : Nat
  y : Nat
deriving DecidableEq, Repr

/-- The TileMap object of src/model/tiles.py, restricted to its data fields
(the pygame surface is presentation). -/
structure TileMap where
  tile_size : Nat
  start_x : Nat
  start_y : Nat
  spritesheet : String
  tiles : List Tile
  map_w : Nat
  map_h : Nat
deriving DecidableEq, Repr

/-- The mutable attributes TileMap.load_tiles writes while scanning, plus
the loop counters x and y of the source. -/
structure TileScan where
  start_x : Nat
  start_y : Nat
  tiles : List Tile
  x : Nat
  y : Nat
deriving DecidableEq, Repr

/-- The inner loop body of TileMap.load_tiles (tiles.py lines 48-56): a cell
of value 0 records the start position, 1 and 2 append ground tiles, anything
else is skipped; x advances for every cell. -/
def scanTile (ts : Nat) (st : TileScan) (cell : String) : TileScan :=
  let st :=
    if cell = "0" then { st with start_x := st.x * ts, start_y := st.y * ts }
    else if cell = "1" then
      { st with tiles := st.tiles ++ [{ image := "ground.png", x := st.x * ts, y := st.y * ts }] }
    else if cell = "2" then
      { st with tiles := st.tiles ++ [{ image := "ground2.png", x := st.x * ts, y := st.y * ts }] }
    else st
  { st with x := st.x + 1 }

/-- The outer loop body of TileMap.load_tiles: x resets per row, y advances
per row. -/
def scanRow (ts : Nat) (st : TileScan) (row : List String) : TileScan :=
  let st := { st with x := 0 }
  let st := row.foldl (scanTile ts) st
  { st with y := st.y + 1 }

/-- The scan TileMap.load_tiles performs over a parsed CSV map (tiles.py
lines 42-61); the final x and y counters feed map_w and map_h. -/
def load_tiles_scan (ts : Nat) (m : List (List String)) : TileScan :=
  m.foldl (scanRow ts) { start_x := 0, start_y := 0, tiles := [], x := 0, y := 0 }

/-- Modelled from the spec: the filesystem is an external collaborator: a CSV
file is a list of rows of cells, and TileMap.read_csv raises IOError when the
file is absent. -/
def read_csv (fs : String → Option (List (List String))) (filename : String) :
    Except PyError (List (List String)) :=
  match fs filename with
  | some m => Except.ok m
  | none => Except.error PyError.ioError

/-- A call to the bound method TileMap.load_tiles with a Python argument
list: the method declares exactly one required parameter (filename), so any
other arity raises TypeError. -/
def load_tiles_call (fs : String → Option (List (List String))) (args : List String) :
    Except PyError TileScan :=
  match args with
  | [filename] => do
    let m ← read_csv fs filename
    Except.ok (load_tiles_scan 16 m)
  | _ => Except.error PyError.typeError

/-- TileMap.__init__ (tiles.py lines 17-25): tile_size is 16, the first
load_tiles(filename) call fills the tile list and map size, and then the
source unconditionally calls self.load_tiles() with no argument. -/
def tileMapNew (fs : String → Option (List (List String))) (filename spritesheet : String) :
    Except PyError TileMap :=
  match load_tiles_call fs [filename] with
  | Except.error e => Except.error e
  | Except.ok sc =>
    match load_tiles_call fs [] with
    | Except.error e => Except.error e
    | Except.ok _sc2 =>
      Except.ok { tile_size := 16, start_x := sc.start_x, start_y := sc.start_y,
                  spritesheet := spritesheet, tiles := sc.tiles,
                  map_w := sc.x * 16, map_h := sc.y * 16 }

/-- A concrete mid-run game state used as a test vehicle: a knight standing
in the SQUARE start room, no transition in flight. -/
def demoGame : Game :=
  { state := GameState.PLAYING,
    selected_hero_type := some HeroType.knight,
    hero_selection_made := true,
    dungeon_template := DungeonTemplate.SQUARE,
    play_time := 0,
    active_hero := some { mkHero HeroType.knight 300 436 with ground_y := 436 },
    enemies := [],
    projectiles := [],
    platforms := [],
    dungeon := some (buildDungeon DungeonTemplate.SQUARE),
    current_room := some (mkRoom 0 0 RoomKind.START 3 3),
    camera_x := 0, camera_y := 0,
    width := 1280, height := 720,
    transition := idleTransition,
    pending_door := none }

/-- A concrete game state in mid-transition: the dungeon manager has already
switched to the room at (1,0) after a door entry, the fade is at 0.3 of its
0.8 seconds and the midpoint callback has not fired yet. -/
def gMid : Game :=
  { demoGame with
    dungeon := some { buildDungeon DungeonTemplate.SQUARE with currentPos := (1, 0) },
    transition := { is_active := true, elapsed := 3/10, duration := 4/5,
                    callback_fired := false } }

/-- A dead knight, for win/loss evaluation tests. -/
def deadKnight : Hero :=
  { mkHero HeroType.knight 100 436 with health := 0, is_alive := false }

/-- A living enemy, for win/loss evaluation tests. -/
def liveEnemy : Enemy :=
  { x := 500, y := 440, width := 48, height := 60, health := 80, max_health := 80,
    speed := 30, damage := 10, is_alive := true, is_invulnerable := false,
    isBoss := false, attack_cooldown := 0 }

/-- A dead enemy, for win/loss evaluation tests. -/
def deadEnemy : Enemy :=
  { liveEnemy with health := 0, is_alive := false }

/-- A normal (non-start, non-boss) room of the SQUARE grid. -/
def normalRoom10 : Room := mkRoom 1 0 RoomKind.NORMAL 3 3

/-- The boss room of the SQUARE grid. -/
def bossRoom22 : Room := mkRoom 2 2 RoomKind.BOSS 3 3

/-- The start room of the SQUARE grid. -/
def startRoom00 : Room := mkRoom 0 0 RoomKind.START 3 3

/-- The game state at the moment of a transition completion into the normal
room (1,0), with a projectile still in flight from the previous room. -/
def gEnterNormal : Game :=
  { gMid with current_room := some normalRoom10,
              projectiles := [{ x := 400, y := 450, vx := 5, vy := 0, active := true }] }

/-- A saved record whose fields all extract, but whose hero_position is
malformed in shape (not a coordinate pair), so the unpacking assignment of
Game.load_game raises only after the rebuild. -/
def badPositionRecord : SaveRecord :=
  { hero_type := some "KNIGHT", hero_position := some none, hero_health := some 100,
    current_room := some (some (0, 0)), dungeon_template := some "DEMO",
    play_time := some 5 }

/-- A knight standing past the left wall of the start room. -/
def heroOutLeft : Hero := { mkHero HeroType.knight (-50) 436 with ground_y := 436 }

/-- The demo game with the out-of-bounds knight. -/
def gOutLeft : Game := { demoGame with active_hero := some heroOutLeft }

/-- The start room the dungeon of a template begins in. -/
def startRoomOf : DungeonTemplate → Room
  | DungeonTemplate.SQUARE => mkRoom 0 0 RoomKind.START 3 3
  | DungeonTemplate.DEMO => mkRoom 0 0 RoomKind.START 2 1

/-- The hero Game._initialize_game leaves active after a rebuild: created at
a temporary position, then moved to the spawn position of the start room with
its ground line on the floor. -/
def initHero (ht : HeroType) (t : DungeonTemplate) : Hero :=
  let hero0 := mkHero ht 0 0
  let sp := (buildDungeon t).playerSpawnPosition hero0.width hero0.height
  { hero0 with x := sp.1, y := sp.2,
               ground_y := ((startRoomOf t).floor_y : ℚ) - ((mkHero ht 0 0).height : ℚ) }

/-- The well-formed record Game.save_game writes for a live run. -/
def liveSaveRecord (ht : HeroType) (tpl : DungeonTemplate) (px py hp : ℚ)
    (rc : Nat × Nat) (pt : Option ℚ) : SaveRecord :=
  { hero_type := some (heroTypeName ht), hero_position := some (some (px, py)),
    hero_health := some hp, current_room := some (some rc),
    dungeon_template := some (templateName tpl), play_time := pt }

/-- C5: on every win/loss evaluation tick, all heroes dead yields GAME_OVER;
with some hero alive, a non-empty enemies list with every enemy dead yields
VICTORY; and a tick with an empty enemies list never newly yields VICTORY. -/
theorem check_game_state_win_loss (heroes : List Hero) (enemies : List Enemy)
    (st : GameState) :
    (heroes.all (fun h => !h.is_alive) = true →
      checkGameState heroes enemies st = GameState.GAME_OVER) ∧
    (heroes.all (fun h => !h.is_alive) = false → enemies ≠ [] →
      enemies.all (fun e => !e.is_alive) = true →
      checkGameState heroes enemies st = GameState.VICTORY) ∧
    (enemies = [] → st ≠ GameState.VICTORY →
      checkGameState heroes enemies st ≠ GameState.VICTORY) := by
  unfold checkGameState
  refine ⟨fun hh => by simp [hh], fun hh hne ha => ?_, fun he hst => ?_⟩
  · have : enemies.isEmpty = false := by
      cases enemies with
      | nil => exact absurd rfl hne
      | cons a l => rfl
    simp [hh, ha, this]
  · subst he
    by_cases hh : heroes.all (fun h => !h.is_alive) = true <;> simp [hh, hst]

/-- Witness for C5 at concrete inputs. -/
theorem check_game_state_win_loss_witness :
    checkGameState [deadKnight] [liveEnemy] GameState.PLAYING = GameState.GAME_OVER ∧
    checkGameState [mkHero HeroType.knight 0 0] [deadEnemy] GameState.PLAYING
      = GameState.VICTORY ∧
    checkGameState [mkHero HeroType.knight 0 0] [] GameState.PLAYING
      ≠ GameState.VICTORY :=
  ⟨(check_game_state_win_loss [deadKnight] [liveEnemy] GameState.PLAYING).1 (by decide),
   (check_game_state_win_loss [mkHero HeroType.knight 0 0] [deadEnemy]
      GameState.PLAYING).2.1 (by decide) (by decide) (by decide),
   (check_game_state_win_loss [mkHero HeroType.knight 0 0] []
      GameState.PLAYING).2.2 rfl (by decide)⟩

/-- C9: when all heroes are dead and all enemies of a non-empty list are dead
too, the evaluation yields GAME_OVER, not VICTORY: the all-heroes-dead branch
runs first. -/
theorem game_over_priority_over_victory (heroes : List Hero) (enemies : List Enemy)
    (st : GameState) (hh : heroes.all (fun h => !h.is_alive) = true)
    (_hne : enemies ≠ []) (_he : enemies.all (fun e => !e.is_alive) = true) :
    checkGameState heroes enemies st = GameState.GAME_OVER ∧
    checkGameState heroes enemies st ≠ GameState.VICTORY := by
  unfold checkGameState
  simp [hh]

/-- Witness for C9 at concrete inputs. -/
theorem game_over_priority_over_victory_witness :
    checkGameState [deadKnight] [deadEnemy] GameState.PLAYING = GameState.GAME_OVER ∧
    checkGameState [deadKnight] [deadEnemy] GameState.PLAYING ≠ GameState.VICTORY :=
  game_over_priority_over_victory [deadKnight] [deadEnemy] GameState.PLAYING
    (by decide) (by decide) (by decide)

/-- C4 (amended): the door-crossing hitbox is 16 units tall, flush with the
bottom of the body box, offset a quarter of the width from the left and half
the width wide (floor divisions); it is exactly centered whenever the width
is divisible by 4. -/
theorem feet_hitbox_geometry (h : Hero) :
    (h.feet_hitbox).h = 16 ∧
    (h.feet_hitbox).y + (h.feet_hitbox).h = h.y + (h.height : ℚ) ∧
    (h.feet_hitbox).x = h.x + ((h.width / 4 : Nat) : ℚ) ∧
    (h.feet_hitbox).w = ((h.width / 2 : Nat) : ℚ) ∧
    (2 * (h.feet_hitbox).w ≤ (h.width : ℚ) ∧
      (h.width : ℚ) < 2 * (h.feet_hitbox).w + 2) ∧
    (h.width % 4 = 0 →
      (h.feet_hitbox).x - h.x
        = (h.x + (h.width : ℚ)) - ((h.feet_hitbox).x + (h.feet_hitbox).w)) := by
  unfold Hero.feet_hitbox
  refine ⟨rfl, by ring, rfl, rfl, ⟨?_, ?_⟩, fun hmod => ?_⟩
  · show 2 * ((h.width / 2 : Nat) : ℚ) ≤ (h.width : ℚ)
    have hn : 2 * (h.width / 2) ≤ h.width := by omega
    exact_mod_cast hn
  · show (h.width : ℚ) < 2 * ((h.width / 2 : Nat) : ℚ) + 2
    have hn : h.width < 2 * (h.width / 2) + 2 := by omega
    exact_mod_cast hn
  · show h.x + ((h.width / 4 : Nat) : ℚ) - h.x
      = (h.x + (h.width : ℚ))
        - (h.x + ((h.width / 4 : Nat) : ℚ) + ((h.width / 2 : Nat) : ℚ))
    have hn : h.width / 4 + (h.width / 4 + h.width / 2) = h.width := by omega
    have hq : ((h.width / 4 : Nat) : ℚ) + (((h.width / 4 : Nat) : ℚ) + ((h.width / 2 : Nat) : ℚ))
        = (h.width : ℚ) := by exact_mod_cast hn
    linarith

/-- Witness for C4 at a concrete hero box. -/
theorem feet_hitbox_geometry_witness :
    (Hero.feet_hitbox (mkHero HeroType.knight 10 20)).h = 16 ∧
    (Hero.feet_hitbox (mkHero HeroType.knight 10 20)).y
        + (Hero.feet_hitbox (mkHero HeroType.knight 10 20)).h
      = (mkHero HeroType.knight 10 20).y + ((mkHero HeroType.knight 10 20).height : ℚ) ∧
    (Hero.feet_hitbox (mkHero HeroType.knight 10 20)).x - (mkHero HeroType.knight 10 20).x
      = ((mkHero HeroType.knight 10 20).x + ((mkHero HeroType.knight 10 20).width : ℚ))
        - ((Hero.feet_hitbox (mkHero HeroType.knight 10 20)).x
            + (Hero.feet_hitbox (mkHero HeroType.knight 10 20)).w) :=
  ⟨(feet_hitbox_geometry (mkHero HeroType.knight 10 20)).1,
   (feet_hitbox_geometry (mkHero HeroType.knight 10 20)).2.1,
   (feet_hitbox_geometry (mkHero HeroType.knight 10 20)).2.2.2.2.2 (by decide)⟩

/-- Counterexample for C4 as stated: at a 64-wide hero the hitbox is 32 wide,
not the claimed quarter width 16; and at width 5 the floor divisions leave it
off-center (left margin 1, right margin 2). -/
theorem feet_hitbox_quarter_width_cex :
    (Hero.feet_hitbox (mkHero HeroType.knight 0 0)).w
      ≠ ((mkHero HeroType.knight 0 0).width : ℚ) / 4 ∧
    (Hero.feet_hitbox { mkHero HeroType.knight 0 0 with width := 5 }).x
        - ({ mkHero HeroType.knight 0 0 with width := 5 } : Hero).x
      ≠ (({ mkHero HeroType.knight 0 0 with width := 5 } : Hero).x
            + (({ mkHero HeroType.knight 0 0 with width := 5 } : Hero).width : ℚ))
        - ((Hero.feet_hitbox { mkHero HeroType.knight 0 0 with width := 5 }).x
            + (Hero.feet_hitbox { mkHero HeroType.knight 0 0 with width := 5 }).w) := by
  constructor <;> · simp [mkHero, Hero.feet_hitbox]; norm_num

/-- C8: an argument that is not a HeroType member is rejected by select_hero
and _create_hero with ValueError raised before any mutation, so the carried
object state equals the input state. -/
theorem invalid_hero_type_rejected (g : Game) (arg xa ya : PyArg)
    (h : arg.isHeroType = false) :
    Game.select_hero g arg = Except.error (PyError.valueError "Invalid hero type", g) ∧
    Game.create_hero g arg xa ya
      = Except.error (PyError.valueError "Invalid hero type", g) := by
  cases arg with
  | heroTag t => exact absurd h (by simp [PyArg.isHeroType])
  | strArg s => exact ⟨rfl, rfl⟩
  | intArg n => exact ⟨rfl, rfl⟩
  | floatArg q => exact ⟨rfl, rfl⟩
  | noneArg => exact ⟨rfl, rfl⟩

/-- Witness for C8 at a concrete invalid argument (the string knight is a
value of the enum, but not a member, so isinstance rejects it). -/
theorem invalid_hero_type_rejected_witness :
    Game.select_hero demoGame (PyArg.strArg "knight")
      = Except.error (PyError.valueError "Invalid hero type", demoGame) ∧
    Game.create_hero demoGame (PyArg.strArg "knight") (PyArg.intArg 0) (PyArg.intArg 0)
      = Except.error (PyError.valueError "Invalid hero type", demoGame) :=
  invalid_hero_type_rejected demoGame (PyArg.strArg "knight")
    (PyArg.intArg 0) (PyArg.intArg 0) rfl

/-- C10: for every filesystem content and every filename and spritesheet
argument, TileMap construction raises: the unconditional zero-argument
self.load_tiles() call cannot satisfy the required filename parameter, so no
TileMap value is ever produced. -/
theorem tilemap_init_always_errors (fs : String → Option (List (List String)))
    (filename spritesheet : String) :
    ∃ e, tileMapNew fs filename spritesheet = Except.error e := by
  unfold tileMapNew
  cases hc : load_tiles_call fs [filename] with
  | error e => exact ⟨e, by simp [hc]⟩
  | ok sc => exact ⟨PyError.typeError, by simp [hc, load_tiles_call]⟩

/-- C3, evaluated at the failing input: completing a room change into a
normal non-start room leaves the enemies list empty (the source draws
random.randint(1,3) — here 2 — but its enemy construction is commented out),
while the boss room does get exactly one boss, the start room none, and the
projectile list is cleared. -/
theorem spawn_policy_normal_room_empty :
    (spawnRoomEnemies normalRoom10 2).length = 0 ∧
    (spawnRoomEnemies bossRoom22 2).length = 1 ∧
    (spawnRoomEnemies bossRoom22 2).all (fun e => e.isBoss) = true ∧
    spawnRoomEnemies startRoom00 2 = [] ∧
    (Game.handle_room_change gEnterNormal 2).projectiles = [] ∧
    (Game.handle_room_change gEnterNormal 2).enemies = [] :=
  ⟨rfl, rfl, rfl, rfl, rfl, rfl⟩

/-- C1 (amended): a missing persisted record, and every failure of the
extraction phase of Game.load_game (a missing field, or an unrecognized
hero-type or template name), returns False with the in-memory run exactly
unchanged; the source raises there before any mutation. -/
theorem load_game_failure_before_mutation (g : Game) (r : SaveRecord)
    (h : r.extraction_fails = true) :
    Game.load_game g none = (false, g) ∧ Game.load_game g (some r) = (false, g) := by
  refine ⟨rfl, ?_⟩
  obtain ⟨f1, f2, f3, f4, f5, f6⟩ := r
  simp only [SaveRecord.extraction_fails] at h
  cases f1 with
  | none => rfl
  | some tn =>
    simp only [Game.load_game]
    cases hn : heroTypeFromName tn with
    | none => rfl
    | some ht =>
      cases f2 with
      | none => rfl
      | some pv =>
        cases f3 with
        | none => rfl
        | some hp =>
          cases f4 with
          | none => rfl
          | some rv =>
            cases f5 with
            | none => rfl
            | some dn =>
              dsimp only
              cases hm : templateFromName dn with
              | none => rfl
              | some tpl =>
                exfalso
                simp [hn, hm, Option.bind] at h

/-- Witness for C1 at a record whose hero_health field is absent. -/
theorem load_game_failure_before_mutation_witness :
    Game.load_game demoGame none = (false, demoGame) ∧
    Game.load_game demoGame
        (some { hero_type := some "KNIGHT", hero_position := some (some (1, 2)),
                hero_health := none, current_room := some (some (0, 0)),
                dungeon_template := some "SQUARE", play_time := none })
      = (false, demoGame) :=
  load_game_failure_before_mutation demoGame
    { hero_type := some "KNIGHT", hero_position := some (some (1, 2)),
      hero_health := none, current_room := some (some (0, 0)),
      dungeon_template := some "SQUARE", play_time := none } (by decide)

/-- Counterexample for C1 as stated: loading a record with a malformed
hero_position into a run whose template is SQUARE returns False, yet the
in-memory run is no longer the one before the call — its dungeon template has
already been switched to the saved DEMO value. -/
theorem load_game_mutates_on_malformed_cex :
    (Game.load_game demoGame (some badPositionRecord)).1 = false ∧
    (Game.load_game demoGame (some badPositionRecord)).2.dungeon_template
      = DungeonTemplate.DEMO ∧
    demoGame.dungeon_template = DungeonTemplate.SQUARE ∧
    (Game.load_game demoGame (some badPositionRecord)).2 ≠ demoGame := by
  have h1 : (Game.load_game demoGame (some badPositionRecord)).2.dungeon_template
      = DungeonTemplate.DEMO := rfl
  have h2 : demoGame.dungeon_template = DungeonTemplate.SQUARE := rfl
  refine ⟨rfl, h1, h2, fun hEq => ?_⟩
  exact DungeonTemplate.noConfusion
    (h1.symm.trans ((congrArg Game.dungeon_template hEq).trans h2))

theorem update_eq_composition (g : Game) (dt : ℚ) (keys : Keys) (rand : Nat)
    (hst : g.state = GameState.PLAYING) :
    Game.update g dt keys rand
      = ((g.transition_update dt rand).enforce_room_bounds).update_after_bounds dt keys rand := by
  unfold Game.update
  rw [if_pos hst]

theorem update_after_bounds_of_transitioning (g : Game) (dt : ℚ) (keys : Keys)
    (rand : Nat) (h : g.transition.is_active = true) :
    g.update_after_bounds dt keys rand = g := by
  unfold Game.update_after_bounds
  rw [if_pos h]

theorem clampHeroToRoom_x_of (room : Room) (hero : Hero)
    (h1 : ¬ hero.x < 0) (h2 : ¬ (room.width : ℚ) < hero.x + (hero.width : ℚ)) :
    (clampHeroToRoom room hero).x = hero.x := by
  unfold clampHeroToRoom
  dsimp only
  rw [if_neg h1, if_neg h2]
  split <;> rfl

theorem clampHeroToRoom_id (room : Room) (hero : Hero)
    (h1 : ¬ hero.x < 0) (h2 : ¬ (room.width : ℚ) < hero.x + (hero.width : ℚ))
    (h3 : ¬ (room.floor_y : ℚ) < hero.y + (hero.height : ℚ)) :
    clampHeroToRoom room hero = hero := by
  unfold clampHeroToRoom
  dsimp only
  rw [if_neg h1, if_neg h2, if_neg h3]

theorem clampHeroToRoom_spec (room : Room) (hero : Hero)
    (hw : (hero.width : ℚ) ≤ (room.width : ℚ)) :
    (clampHeroToRoom room hero).width = hero.width ∧
    (clampHeroToRoom room hero).height = hero.height ∧
    (clampHeroToRoom room hero).health = hero.health ∧
    0 ≤ (clampHeroToRoom room hero).x ∧
    (clampHeroToRoom room hero).x + ((clampHeroToRoom room hero).width : ℚ)
      ≤ (room.width : ℚ) ∧
    (clampHeroToRoom room hero).y + ((clampHeroToRoom room hero).height : ℚ)
      ≤ (room.floor_y : ℚ) := by
  unfold clampHeroToRoom
  dsimp only
  split_ifs with h1 h2 h3 h2 h3 h3 h3 <;>
    refine ⟨rfl, rfl, rfl, ?_, ?_, ?_⟩ <;> dsimp only <;> linarith

theorem clampHeroToRoom_health (room : Room) (hero : Hero) :
    (clampHeroToRoom room hero).health = hero.health := by
  unfold clampHeroToRoom
  dsimp only
  split_ifs <;> rfl

theorem enforce_room_bounds_preserves (g : Game) :
    (g.enforce_room_bounds).enemies = g.enemies ∧
    (g.enforce_room_bounds).projectiles = g.projectiles ∧
    (g.enforce_room_bounds).camera_x = g.camera_x ∧
    (g.enforce_room_bounds).camera_y = g.camera_y ∧
    (g.enforce_room_bounds).state = g.state ∧
    (g.enforce_room_bounds).transition = g.transition ∧
    (g.enforce_room_bounds).active_hero.map Hero.health
      = g.active_hero.map Hero.health := by
  unfold Game.enforce_room_bounds
  rcases hh : g.active_hero with _ | hero <;> rcases hr : g.current_room with _ | room <;>
    simp [hh, clampHeroToRoom_health]

/-- C7: on every PLAYING tick — transitioning or not — Game.update factors
through the unconditional room-bounds clamp, and right after that clamp a
fitting active hero satisfies 0 ≤ x, x + width ≤ room.width and
y + height ≤ room.floor_y for the current room. -/
theorem enforce_room_bounds_every_tick (g : Game) (dt : ℚ) (keys : Keys) (rand : Nat)
    (hero : Hero) (room : Room)
    (hst : g.state = GameState.PLAYING)
    (hhero : (g.transition_update dt rand).active_hero = some hero)
    (hroom : (g.transition_update dt rand).current_room = some room)
    (hw : (hero.width : ℚ) ≤ (room.width : ℚ)) :
    (∃ h2, ((g.transition_update dt rand).enforce_room_bounds).active_hero = some h2 ∧
       h2.width = hero.width ∧ h2.height = hero.height ∧
       0 ≤ h2.x ∧ h2.x + (h2.width : ℚ) ≤ (room.width : ℚ) ∧
       h2.y + (h2.height : ℚ) ≤ (room.floor_y : ℚ)) ∧
    Game.update g dt keys rand
      = ((g.transition_update dt rand).enforce_room_bounds).update_after_bounds dt keys rand := by
  constructor
  · refine ⟨clampHeroToRoom room hero, ?_, ?_, ?_, ?_, ?_, ?_⟩
    · unfold Game.enforce_room_bounds
      rw [hhero, hroom]
    · exact (clampHeroToRoom_spec room hero hw).1
    · exact (clampHeroToRoom_spec room hero hw).2.1
    · exact (clampHeroToRoom_spec room hero hw).2.2.2.1
    · have h5 := (clampHeroToRoom_spec room hero hw).2.2.2.2.1
      exact h5
    · exact (clampHeroToRoom_spec room hero hw).2.2.2.2.2
  · unfold Game.update
    rw [if_pos hst]

/-- Witness for C7: the out-of-bounds hero is clamped back inside on the
next tick. -/
theorem enforce_room_bounds_every_tick_witness :
    (∃ h2, ((Game.transition_update gOutLeft (1/60) 2).enforce_room_bounds).active_hero
        = some h2 ∧
       h2.width = heroOutLeft.width ∧ h2.height = heroOutLeft.height ∧
       0 ≤ h2.x ∧ h2.x + (h2.width : ℚ) ≤ ((startRoom00).width : ℚ) ∧
       h2.y + (h2.height : ℚ) ≤ ((startRoom00).floor_y : ℚ)) ∧
    Game.update gOutLeft (1/60) keysNone 2
      = ((Game.transition_update gOutLeft (1/60) 2).enforce_room_bounds).update_after_bounds
          (1/60) keysNone 2 :=
  enforce_room_bounds_every_tick gOutLeft (1/60) keysNone 2 heroOutLeft startRoom00
    rfl rfl rfl (by norm_num [heroOutLeft, mkHero, startRoom00, mkRoom])

/-- C6 (amended): an update tick taken while a room transition is active,
whose elapsed time stays short of the transition midpoint, does nothing but
advance the transition timer and apply the room-bounds clamp: the whole tick
equals the clamp of the timer-advanced state, and enemies, projectiles,
camera, hero health and game state are untouched.  (A tick that crosses the
midpoint additionally runs the room-swap callback.) -/
theorem transition_tick_before_midpoint_frozen (g : Game) (dt : ℚ) (keys : Keys)
    (rand : Nat)
    (hst : g.state = GameState.PLAYING)
    (hact : g.transition.is_active = true)
    (hdur : 0 < g.transition.duration)
    (hmid : g.transition.elapsed + dt < g.transition.duration / 2) :
    Game.update g dt keys rand
      = Game.enforce_room_bounds
          { g with transition := { g.transition with elapsed := g.transition.elapsed + dt } } ∧
    (Game.update g dt keys rand).enemies = g.enemies ∧
    (Game.update g dt keys rand).projectiles = g.projectiles ∧
    (Game.update g dt keys rand).camera_x = g.camera_x ∧
    (Game.update g dt keys rand).camera_y = g.camera_y ∧
    (Game.update g dt keys rand).active_hero.map Hero.health
      = g.active_hero.map Hero.health ∧
    (Game.update g dt keys rand).state = g.state := by
  have hT : g.transition_update dt rand
      = { g with transition := { g.transition with elapsed := g.transition.elapsed + dt } } := by
    unfold Game.transition_update
    rw [if_pos hact]
    dsimp only
    rw [if_neg (show ¬(g.transition.callback_fired = false ∧
          g.transition.duration / 2 ≤ g.transition.elapsed + dt) from
          fun hc => absurd hc.2 (not_le.mpr hmid))]
    rw [if_neg (show ¬ g.transition.duration ≤ g.transition.elapsed + dt from
          not_le.mpr (lt_trans hmid (by linarith)))]
  have hEq : Game.update g dt keys rand
      = Game.enforce_room_bounds
          { g with transition := { g.transition with elapsed := g.transition.elapsed + dt } } := by
    unfold Game.update
    rw [if_pos hst, hT]
    unfold Game.update_after_bounds
    rw [if_pos (show (Game.enforce_room_bounds
          { g with transition := { g.transition with elapsed := g.transition.elapsed + dt } }
          ).transition.is_active = true from by
        rw [(enforce_room_bounds_preserves _).2.2.2.2.2.1]
        exact hact)]
  have hP := enforce_room_bounds_preserves
    { g with transition := { g.transition with elapsed := g.transition.elapsed + dt } }
  rw [hEq]
  exact ⟨rfl, hP.1, hP.2.1, hP.2.2.1, hP.2.2.2.1, hP.2.2.2.2.2.2, hP.2.2.2.2.1⟩

/-- Witness for C6 at a short tick of the mid-transition game. -/
theorem transition_tick_before_midpoint_frozen_witness :
    Game.update gMid (1/20) keysNone 2
      = Game.enforce_room_bounds
          { gMid with transition := { gMid.transition with elapsed := gMid.transition.elapsed + 1/20 } } ∧
    (Game.update gMid (1/20) keysNone 2).enemies = gMid.enemies ∧
    (Game.update gMid (1/20) keysNone 2).projectiles = gMid.projectiles ∧
    (Game.update gMid (1/20) keysNone 2).camera_x = gMid.camera_x ∧
    (Game.update gMid (1/20) keysNone 2).camera_y = gMid.camera_y ∧
    (Game.update gMid (1/20) keysNone 2).active_hero.map Hero.health
      = gMid.active_hero.map Hero.health ∧
    (Game.update gMid (1/20) keysNone 2).state = gMid.state :=
  transition_tick_before_midpoint_frozen gMid (1/20) keysNone 2
    rfl rfl (by norm_num [gMid, demoGame]) (by norm_num [gMid, demoGame])

/-- Counterexample for C6 as stated: a tick taken while the transition is
active (and still active afterwards) that crosses the midpoint does move the
hero — the room-swap callback repositions it from x 300 to the spawn x 100 —
even though the bounds clamp alone would have left this hero untouched. -/
theorem transition_midpoint_tick_moves_hero_cex :
    gMid.state = GameState.PLAYING ∧
    gMid.transition.is_active = true ∧
    gMid.active_hero.map Hero.x = some 300 ∧
    (Game.update gMid (1/5) keysNone 2).active_hero.map Hero.x = some 100 ∧
    Game.enforce_room_bounds gMid = gMid := by
  have hTU : Game.transition_update gMid (1/5) 2
      = { Game.complete_room_transition gMid 2 with transition :=
          { (Game.complete_room_transition gMid 2).transition with
            callback_fired := true, elapsed := 3/10 + 1/5 } } := by
    have ha : gMid.transition.is_active = true := by rfl
    unfold Game.transition_update
    rw [if_pos ha]
    dsimp only [gMid, demoGame]
    rw [if_pos (show (false = false ∧ (4/5 : ℚ) / 2 ≤ 3/10 + 1/5) from
          ⟨rfl, by norm_num⟩)]
    rw [if_neg (show ¬ ((4/5 : ℚ) ≤ 3/10 + 1/5) from by norm_num)]
  have hx : (Game.complete_room_transition gMid 2).active_hero.map Hero.x
      = some 100 := rfl
  have hwdt : (Game.complete_room_transition gMid 2).active_hero.map Hero.width
      = some 64 := rfl
  have hroomc : (Game.complete_room_transition gMid 2).current_room
      = some normalRoom10 := rfl
  have hactc : (Game.complete_room_transition gMid 2).transition.is_active = true := rfl
  obtain ⟨hM, hgc⟩ : ∃ hM, (Game.complete_room_transition gMid 2).active_hero
      = some hM := by
    cases hg : (Game.complete_room_transition gMid 2).active_hero with
    | none => rw [hg] at hx; exact absurd hx (by simp)
    | some hM => exact ⟨hM, rfl⟩
  have hMx : hM.x = 100 := by
    rw [hgc] at hx
    simpa using hx
  have hMw : hM.width = 64 := by
    rw [hgc] at hwdt
    simpa using hwdt
  have hTUhero : (Game.transition_update gMid (1/5) 2).active_hero = some hM := by
    rw [hTU]
    exact hgc
  have hTUroom : (Game.transition_update gMid (1/5) 2).current_room
      = some normalRoom10 := by
    rw [hTU]
    exact hroomc
  have hEnfHero : ((Game.transition_update gMid (1/5) 2).enforce_room_bounds).active_hero
      = some (clampHeroToRoom normalRoom10 hM) := by
    unfold Game.enforce_room_bounds
    rw [hTUhero, hTUroom]
  have hclampx : (clampHeroToRoom normalRoom10 hM).x = hM.x :=
    clampHeroToRoom_x_of _ _ (by rw [hMx]; norm_num)
      (by rw [hMx, hMw]; norm_num [normalRoom10, mkRoom])
  have hXact : ((Game.transition_update gMid (1/5) 2).enforce_room_bounds).transition.is_active
      = true := by
    rw [(enforce_room_bounds_preserves (Game.transition_update gMid (1/5) 2)).2.2.2.2.2.1]
    rw [hTU]
    exact hactc
  have hcomp := update_eq_composition gMid (1/5) keysNone 2 rfl
  refine ⟨rfl, rfl, rfl, ?_, ?_⟩
  · rw [hcomp, update_after_bounds_of_transitioning _ _ _ _ hXact, hEnfHero]
    simp [hclampx, hMx]
  · have h300 : gMid.active_hero = some { mkHero HeroType.knight 300 436 with ground_y := 436 } := rfl
    have hroom0 : gMid.current_room = some (mkRoom 0 0 RoomKind.START 3 3) := rfl
    unfold Game.enforce_room_bounds
    rw [h300, hroom0]
    dsimp only
    rw [clampHeroToRoom_id _ _ (by norm_num [mkHero]) (by norm_num [mkHero, mkRoom])
          (by norm_num [mkHero, mkRoom])]
    rfl

theorem heroTypeFromName_name (ht : HeroType) :
    heroTypeFromName (heroTypeName ht) = some ht := by
  cases ht <;> rfl

theorem templateFromName_name (t : DungeonTemplate) :
    templateFromName (templateName t) = some t := by
  cases t <;> rfl

theorem buildDungeon_getCurrentRoom (t : DungeonTemplate) :
    (buildDungeon t).getCurrentRoom = some (startRoomOf t) := by
  cases t <;> rfl

theorem init_game_eq (g : Game) (ht : HeroType)
    (hsel : g.selected_hero_type = some ht) :
    g.init_game = { g with enemies := [],
                           dungeon := some (buildDungeon g.dungeon_template),
                           current_room := some (startRoomOf g.dungeon_template),
                           active_hero := some (initHero ht g.dungeon_template) } := by
  unfold Game.init_game Game.init_dungeon Game.cleanup initHero
  dsimp only
  rw [hsel]
  dsimp only
  rw [buildDungeon_getCurrentRoom]

theorem load_game_valid_record (g : Game) (ht : HeroType) (tpl : DungeonTemplate)
    (px py hp : ℚ) (rc : Nat × Nat) (pt : Option ℚ)
    (hroom : ((buildDungeon tpl).roomAt rc).isSome = true) :
    ∃ g2 hero2,
      Game.load_game g (some (liveSaveRecord ht tpl px py hp rc pt)) = (true, g2) ∧
      g2.active_hero = some hero2 ∧ hero2.x = px ∧ hero2.y = py ∧ hero2.health = hp ∧
      g2.dungeon.map Dungeon.getCurrentRoomPosition = some rc ∧
      g2.dungeon_template = tpl := by
  obtain ⟨rc1, rc2⟩ := rc
  obtain ⟨room, hr⟩ := Option.isSome_iff_exists.mp hroom
  unfold Game.load_game liveSaveRecord
  dsimp only
  rw [heroTypeFromName_name, templateFromName_name]
  dsimp only
  rw [init_game_eq _ ht rfl]
  unfold Dungeon.setCurrentRoomByCoordinates
  dsimp only
  rw [hr]
  exact ⟨_, _, rfl, rfl, rfl, rfl, rfl, rfl, rfl⟩

/-- C2: for a run with an active hero, a dungeon manager and a selected hero
type (and a current-room coordinate that exists in the grid the stored
template rebuilds), saving and then loading the saved record succeeds and
reproduces the hero position, the hero health, the current room coordinate
and the dungeon template exactly. -/
theorem save_load_round_trip (g : Game) (hero : Hero) (d : Dungeon) (ht : HeroType)
    (hhero : g.active_hero = some hero)
    (hdung : g.dungeon = some d)
    (hsel : g.selected_hero_type = some ht)
    (hpos : ((buildDungeon g.dungeon_template).roomAt d.currentPos).isSome = true) :
    ∃ rec g2 hero2,
      g.save_game = some rec ∧
      Game.load_game g (some rec) = (true, g2) ∧
      g2.active_hero = some hero2 ∧
      hero2.x = hero.x ∧ hero2.y = hero.y ∧ hero2.health = hero.health ∧
      g2.dungeon.map Dungeon.getCurrentRoomPosition = some d.currentPos ∧
      g2.dungeon_template = g.dungeon_template := by
  have hsave : g.save_game
      = some (liveSaveRecord ht g.dungeon_template hero.x hero.y hero.health
          d.currentPos (some g.play_time)) := by
    unfold Game.save_game liveSaveRecord Dungeon.getCurrentRoomPosition
    rw [hhero, hdung]
    dsimp only
    rw [hsel]
  obtain ⟨g2, hero2, hload, hact, hx, hy, hh, hcp, htp⟩ :=
    load_game_valid_record g ht g.dungeon_template hero.x hero.y hero.health
      d.currentPos (some g.play_time) hpos
  exact ⟨_, g2, hero2, hsave, hload, hact, hx, hy, hh, hcp, htp⟩

/-- Witness for C2 at the concrete mid-run game. -/
theorem save_load_round_trip_witness :
    ∃ rec g2 hero2,
      Game.save_game demoGame = some rec ∧
      Game.load_game demoGame (some rec) = (true, g2) ∧
      g2.active_hero = some hero2 ∧
      hero2.x = 300 ∧ hero2.y = 436 ∧ hero2.health = 375 ∧
      g2.dungeon.map Dungeon.getCurrentRoomPosition = some (0, 0) ∧
      g2.dungeon_template = DungeonTemplate.SQUARE :=
  save_load_round_trip demoGame
    { mkHero HeroType.knight 300 436 with ground_y := 436 }
    (buildDungeon DungeonTemplate.SQUARE) HeroType.knight
    rfl rfl rfl (by decide)

end DungeonAdventure
